import Mathlib

/-!
Shallow embedding of the semantic FAQ retrieval and answer-synthesis engine
implemented in `src/faq_system.py` (class `FAQSystem`), together with proofs
of the behavioural properties stated in the specification.

Modelling conventions:
- Python float values are idealised as real numbers, vectors as `List ℝ`.
- The two external providers (Azure embedding client and chat client) are
  modelled as function-valued fields of the system state that may fail,
  returning `Except.error` with an error description; this mirrors the
  `try/except` blocks around the provider calls in the source.
- Python dict-shaped records (`FAQEntry`, the result of `answer_question`)
  become structures with the same fields.  The source formats similarity
  scores into display strings (f-string with two decimals and a percent);
  the numeric values are kept instead, the formatting itself is not part of
  any verified property.
- Functions that additionally track how many external calls were made are
  given `_traced` variants whose extra component counts provider calls, with
  the plain function defined as the first projection.  The branch structure
  of the traced variants mirrors the source exactly.
-/

namespace PhotoFaq

/-- One FAQ entry, the shape of the dictionaries in the `faqs` list of the
corpus file (section 3 of the spec, and `load_faq` in the source). -/
structure FAQEntry where
  id : Int
  question : String
  answer : String
  deriving DecidableEq

/-- FAQSystem.get_embedding (src/faq_system.py lines 124-136): calls the
embedding provider and returns its vector; on a provider exception it
returns the empty list instead of propagating. -/
def get_embedding (embed : String → Except String (List ℝ)) (text : String) :
    List ℝ :=
  match embed text with
  | Except.ok v => v
  | Except.error _ => []

/-- FAQSystem.generate_all_embeddings (lines 138-155), instrumented: the loop
appends, for every FAQ entry in corpus order, the embedding of its question
(or the empty list when the provider call failed), and counts one provider
invocation per entry.  The first component is the final embeddings list, the
second the number of provider calls made. -/
def generate_all_embeddings_traced (embed : String → Except String (List ℝ))
    (faq_data : List FAQEntry) (init : List (List ℝ)) : List (List ℝ) × Nat :=
  faq_data.foldl
    (fun acc faq =>
      let embedding := get_embedding embed faq.question
      (acc.1 ++ [if embedding.isEmpty then [] else embedding], acc.2 + 1))
    (init, 0)

/-- FAQSystem.generate_all_embeddings (lines 138-155): the resulting
embeddings list (starting from the current `self.embeddings`, which is `[]`
on the startup path that reaches this function). -/
def generate_all_embeddings (embed : String → Except String (List ℝ))
    (faq_data : List FAQEntry) (init : List (List ℝ)) : List (List ℝ) :=
  (generate_all_embeddings_traced embed faq_data init).1

/-- Dot product of two vectors, the model of `np.dot` on lines 163-166.
Like the source (whose vectors all have the dimension fixed by the embedding
model), it is only applied to equal-length vectors; `zipWith` truncates to
the shorter one. -/
noncomputable def dotl (vec1 vec2 : List ℝ) : ℝ :=
  (List.zipWith (fun x y => x * y) vec1 vec2).sum

/-- Euclidean norm, the model of `np.linalg.norm` on lines 167-168. -/
noncomputable def norml (vec : List ℝ) : ℝ :=
  Real.sqrt (dotl vec vec)

/-- FAQSystem.cosine_similarity (lines 158-173): returns 0 when either
vector is empty, 0 when either norm is zero, and otherwise the dot product
divided by the product of the norms. -/
noncomputable def cosine_similarity (vec1 vec2 : List ℝ) : ℝ :=
  if vec1 = [] ∨ vec2 = [] then 0
  else if norml vec1 = 0 ∨ norml vec2 = 0 then 0
  else dotl vec1 vec2 / (norml vec1 * norml vec2)

/-- The retrieval-engine state after startup: the loaded corpus, the cached
embeddings (one vector per entry), and the two external providers. -/
structure FAQSystem where
  faq_data : List FAQEntry
  embeddings : List (List ℝ)
  embed : String → Except String (List ℝ)
  chat : String → String → Except String String

/-- Ordering used by the ranking sort on line 195
(`sort(key=lambda x, reverse=True)`): x precedes y when the similarity of y
is at most the similarity of x.  A stable sort with this relation is exactly
a stable descending sort, which is what the Python list sort performs. -/
def simRel : FAQEntry × ℝ → FAQEntry × ℝ → Prop := fun x y => y.2 ≤ x.2

noncomputable instance : DecidableRel simRel :=
  fun x y => inferInstanceAs (Decidable (y.2 ≤ x.2))

/-- The `similarities` list built by the loop on lines 188-192: entries whose
cached embedding is non-empty, paired with their cosine similarity to the
query embedding, in corpus order.  The source iterates over
`enumerate(self.embeddings)` and indexes `self.faq_data[i]`; since the class
maintains one embedding per FAQ entry (equal lengths, by construction of
`generate_all_embeddings` and cache validation), this is the zip of the two
lists. -/
noncomputable def similarity_list (sys : FAQSystem)
    (question_embedding : List ℝ) : List (FAQEntry × ℝ) :=
  ((sys.faq_data.zip sys.embeddings).filter (fun p => !p.2.isEmpty)).map
    (fun p => (p.1, cosine_similarity question_embedding p.2))

/-- FAQSystem.find_similar_faqs (lines 175-198), instrumented: embeds the
question (returning `([], 0)` when that fails, before any scoring), computes
similarities for entries with non-empty cached embeddings, sorts them in
descending similarity order with a stable sort, and truncates to `top_k`.
The second component counts how many cosine-similarity scorings were
performed. -/
noncomputable def find_similar_faqs_traced (sys : FAQSystem)
    (question : String) (top_k : Nat) : List (FAQEntry × ℝ) × Nat :=
  let question_embedding := get_embedding sys.embed question
  if question_embedding = [] then ([], 0)
  else
    let similarities := similarity_list sys question_embedding
    ((List.insertionSort simRel similarities).take top_k, similarities.length)

/-- FAQSystem.find_similar_faqs (lines 175-198): the ranked top-k list. -/
noncomputable def find_similar_faqs (sys : FAQSystem) (question : String)
    (top_k : Nat) : List (FAQEntry × ℝ) :=
  (find_similar_faqs_traced sys question top_k).1

/-- The canned low-confidence apology returned on line 210. -/
def canned_low_answer : String :=
  "Przepraszam, nie znalazłem odpowiedzi na to pytanie w bazie FAQ. Czy możesz je sformułować inaczej lub zadać bardziej szczegółowe pytanie?"

/-- One element of the `matched_faqs` list in the result of
`answer_question` (lines 224-231).  The source stores the similarity as a
two-decimal string and as a rounded percent string; the underlying numbers
are kept here. -/
structure MatchedFAQ where
  question : String
  similarity : ℝ
  similarity_percent : ℝ

/-- The dictionary returned by FAQSystem.answer_question (lines 200-234). -/
structure AnswerResult where
  answer : String
  matched_faqs : List MatchedFAQ
  confidence : String
  top_similarity : ℝ

/-- The fixed low-confidence result returned on lines 209-214. -/
def low_confidence_result : AnswerResult :=
  { answer := canned_low_answer
    matched_faqs := []
    confidence := "low"
    top_similarity := 0 }

/-- FAQSystem.build_context header (line 238). -/
def faq_context_intro : String := "Powiązane pytania i odpowiedzi z bazy FAQ:\n\n"

/-- FAQSystem.build_context (lines 236-245): concatenates, for each matched
entry, its question and answer (the numeric index and formatted score of the
source are display detail and are omitted from the model). -/
def build_context (similar_faqs : List (FAQEntry × ℝ)) : String :=
  faq_context_intro ++
    String.join (similar_faqs.map
      (fun p => "PYTANIE: " ++ p.1.question ++ "\nODPOWIEDŹ: " ++ p.1.answer ++ "\n\n"))

/-- Task instructions appended to the user prompt (lines 255-262). -/
def llm_task_text : String :=
  "\n\nZADANIE:\nNa podstawie powyższych informacji z FAQ, odpowiedz na pytanie użytkownika w naturalny, przyjazny sposób."

/-- The user prompt assembled on lines 250-262: grounding context, then the
user question, then the task instructions. -/
def build_prompt (context question : String) : String :=
  context ++ "\n\nPYTANIE UŻYTKOWNIKA:\n" ++ question ++ llm_task_text

/-- The system message of the chat request (lines 269-274). -/
def llm_system_message : String :=
  "Jesteś pomocnym asystentem FAQ dla systemu analizy zdjęć prasowych."

/-- The localized apology produced when the chat call raises (line 287); the
error description is appended to it. -/
def error_answer_text : String :=
  "Przepraszam, wystąpił błąd podczas generowania odpowiedzi: "

/-- FAQSystem.generate_answer_with_llm (lines 247-287): one chat-model call;
on success the stripped message content, on failure the localized apology
with the error description appended. -/
def generate_answer_with_llm (sys : FAQSystem) (question context : String) :
    String :=
  match sys.chat llm_system_message (build_prompt context question) with
  | Except.ok content => content.trim
  | Except.error e => error_answer_text ++ e

/-- FAQSystem.answer_question (lines 200-234), instrumented: ranks the top 3
matches; if there are none or the top similarity is below the threshold,
returns the fixed low-confidence result without calling the chat model
(second component `false`); otherwise builds the context, calls the chat
model (second component `true`), and assembles the full result with
confidence `high` exactly when the top similarity exceeds 0.85, else
`medium`. -/
noncomputable def answer_question_traced (sys : FAQSystem) (question : String)
    (similarity_threshold : ℝ) : AnswerResult × Bool :=
  match find_similar_faqs sys question 3 with
  | [] => (low_confidence_result, false)
  | (f, s) :: rest =>
    if s < similarity_threshold then (low_confidence_result, false)
    else
      let similar_faqs := (f, s) :: rest
      ({ answer := generate_answer_with_llm sys question (build_context similar_faqs)
         matched_faqs := similar_faqs.map
           (fun p => { question := p.1.question
                       similarity := p.2
                       similarity_percent := p.2 * 100 })
         confidence := if s > 0.85 then "high" else "medium"
         top_similarity := s }, true)

/-- FAQSystem.answer_question (lines 200-234). -/
noncomputable def answer_question (sys : FAQSystem) (question : String)
    (similarity_threshold : ℝ) : AnswerResult :=
  (answer_question_traced sys question similarity_threshold).1

/-- The default value of the `similarity_threshold` parameter of
`answer_question` (line 200), which is what both callers in the repository
use. -/
noncomputable def default_similarity_threshold : ℝ := 0.3

/-! ### Embedding cache and startup (src/faq_system.py lines 50-59, 81-122) -/

/-- The dictionary pickled into the cache file by `save_embeddings_cache`
(lines 109-115); `timestamp` is `datetime.now().isoformat()`. -/
structure CacheRecord where
  embeddings : List (List ℝ)
  file_hash : String
  faq_count : Nat
  model : String
  timestamp : String

/-- The state of the persisted cache file as seen by `pickle.load`:
`none` when the file does not exist, `some (Except.error e)` when it exists
but reading or unpickling raises, `some (Except.ok c)` when it deserializes
to the record `c`. -/
def DiskState : Type := Option (Except String CacheRecord)

/-- The validation conjunction on lines 93-95: the stored file hash, FAQ
count and model identity must all equal the current values. -/
def validate_cache (cache : CacheRecord) (current_hash : String)
    (faq_count : Nat) (model : String) : Bool :=
  cache.file_hash == current_hash && cache.faq_count == faq_count &&
    cache.model == model

/-- FAQSystem.load_cached_embeddings (lines 81-105): `none` models a `False`
return (missing file, unpickling failure, or failed validation — any load
or validate failure is treated as absence), `some embs` models a `True`
return after setting `self.embeddings` to the cached vectors. -/
def load_cached_embeddings (disk : DiskState) (current_hash : String)
    (faq_count : Nat) (model : String) : Option (List (List ℝ)) :=
  match disk with
  | none => none
  | some (Except.error _) => none
  | some (Except.ok cache) =>
    if validate_cache cache current_hash faq_count model then
      some cache.embeddings
    else none

/-- The record assembled by `save_embeddings_cache` (lines 109-115). -/
def save_cache_record (embeddings : List (List ℝ)) (file_hash : String)
    (faq_count : Nat) (model : String) (timestamp : String) : CacheRecord :=
  { embeddings := embeddings
    file_hash := file_hash
    faq_count := faq_count
    model := model
    timestamp := timestamp }

/-- Outcome of the startup sequence in `FAQSystem.init` (lines 50-59),
after the corpus has been loaded: the in-memory embeddings, the resulting
cache-file state, and how many times the embedding provider was invoked. -/
structure StartupResult where
  embeddings : List (List ℝ)
  disk : DiskState
  provider_calls : Nat

/-- The startup sequence of `FAQSystem.init` (lines 50-59): try to load the
cached embeddings for the current corpus hash, count and model; on a hit,
use them without any provider call; on a miss, regenerate every embedding
(one provider call per corpus entry) and save the new record.  The save on
line 59 is modelled as succeeding; its failure behaviour is analysed
separately through the operation trace of `save_embeddings_cache_ops`. -/
def startup (disk : DiskState) (current_hash : String)
    (faq_data : List FAQEntry) (model : String)
    (embed : String → Except String (List ℝ)) (timestamp : String) :
    StartupResult :=
  match load_cached_embeddings disk current_hash faq_data.length model with
  | some cached => { embeddings := cached, disk := disk, provider_calls := 0 }
  | none =>
    let gen := generate_all_embeddings_traced embed faq_data []
    { embeddings := gen.1
      disk := some (Except.ok
        (save_cache_record gen.1 current_hash faq_data.length model timestamp))
      provider_calls := gen.2 }

/-- Name of the cache file (line 45). -/
def embeddings_cache_file : String := "faq_embeddings_cache.pkl"

/-- Primitive file operations, used to describe what
`save_embeddings_cache` does to the filesystem. -/
inductive FileOp where
  | openTrunc : String → FileOp
  | writeRecord : String → CacheRecord → FileOp
  | rename : String → String → FileOp

/-- The file operations performed by FAQSystem.save_embeddings_cache
(lines 117-119): `open(self.embeddings_cache_file, "wb")` truncates the
cache file in place, then `pickle.dump` writes the record into it.  There
is no temporary file and no rename in the source. -/
def save_embeddings_cache_ops (cache : CacheRecord) : List FileOp :=
  [FileOp.openTrunc embeddings_cache_file,
   FileOp.writeRecord embeddings_cache_file cache]

/-- A trace saves atomically via a temporary file when no operation opens or
writes the final path directly and some temporary path is renamed onto the
final path. -/
def atomic_via_temp_replace (ops : List FileOp) (final : String) : Prop :=
  (∀ op ∈ ops,
    match op with
    | FileOp.openTrunc p => p ≠ final
    | FileOp.writeRecord p _ => p ≠ final
    | FileOp.rename _ _ => True) ∧
  ∃ tmp, tmp ≠ final ∧ FileOp.rename tmp final ∈ ops

/-- Content of the cache file as a reader would observe it. -/
inductive CacheFileView where
  | truncated : CacheFileView
  | full : CacheRecord → CacheFileView

/-- A filesystem: what each path currently holds (`none` when absent). -/
def FileSys : Type := String → Option CacheFileView

/-- Effect of one file operation on the filesystem. -/
def apply_op (fs : FileSys) : FileOp → FileSys
  | FileOp.openTrunc p => fun q => if q = p then some CacheFileView.truncated else fs q
  | FileOp.writeRecord p r => fun q => if q = p then some (CacheFileView.full r) else fs q
  | FileOp.rename src dst => fun q =>
      if q = dst then fs src else if q = src then none else fs q

/-- All filesystem states a concurrent reader can observe while a trace of
operations runs: the initial state and the state after each operation. -/
def fs_states (fs : FileSys) : List FileOp → List FileSys
  | [] => [fs]
  | op :: rest => fs :: fs_states (apply_op fs op) rest

/-- A corrupt cache file, as deserialization sees a truncated pickle. -/
def corrupt_cache_disk : DiskState := some (Except.error "EOFError")

/-! ### Corpus loading (src/faq_system.py lines 62-74) -/

/-- JSON values, the result of `json.load`. -/
inductive JSONValue where
  | null : JSONValue
  | bool : Bool → JSONValue
  | num : Int → JSONValue
  | str : String → JSONValue
  | arr : List JSONValue → JSONValue
  | obj : List (String × JSONValue) → JSONValue

/-- Dictionary lookup on the fields of a JSON object. -/
def lookup_key (fields : List (String × JSONValue)) (key : String) :
    Option JSONValue :=
  (fields.find? (fun p => p.1 == key)).map (fun p => p.2)

/-- Subscripting `data["faqs"]` as load_faq performs it: defined only when
the parsed document is an object carrying the key; on a non-object document
the Python subscript raises (`TypeError`), on an object without the key it
raises `KeyError` — both leave the result absent here. -/
def faqs_value : JSONValue → Option JSONValue
  | JSONValue.obj fields => lookup_key fields "faqs"
  | _ => none

/-- What the FAQ source file yields when opened and parsed: the file can be
missing, present but not valid JSON, or parse to a JSON document. -/
inductive FAQFileSource where
  | missing : FAQFileSource
  | unparsable : String → FAQFileSource
  | parsed : JSONValue → FAQFileSource

/-- FAQSystem.load_faq (lines 62-74): on success returns the value stored
under the `faqs` key, which becomes `self.faq_data` in one assignment (there
is no partial assignment path); every failure — missing file, JSON parse
failure, document without an accessible `faqs` key — raises.  The error
strings follow the messages of lines 70-74; for a non-object document the
raised error is the uncaught Python `TypeError` of the subscript on
line 67. -/
def load_faq (file_path : String) : FAQFileSource → Except String JSONValue
  | FAQFileSource.missing => Except.error ("FAQ file not found: " ++ file_path)
  | FAQFileSource.unparsable e =>
      Except.error ("Invalid JSON in FAQ file: " ++ e)
  | FAQFileSource.parsed data =>
      match faqs_value data with
      | some v => Except.ok v
      | none =>
        match data with
        | JSONValue.obj _ => Except.error "FAQ file must contain the faqs key"
        | _ => Except.error "TypeError: subscript on a non-object document"

/-- Final filesystem state after a trace of operations completes. -/
def final_fs (fs : FileSys) (ops : List FileOp) : FileSys :=
  ops.foldl apply_op fs

/-! ### Concrete example data used by the witnesses -/

/-- Sample corpus entry. -/
def faqA : FAQEntry :=
  { id := 1, question := "Jak dodac zdjecie", answer := "Uzyj przycisku Dodaj" }

/-- Second sample corpus entry. -/
def faqB : FAQEntry :=
  { id := 2, question := "Jak usunac zdjecie", answer := "Uzyj przycisku Usun" }

/-- Chat provider that always answers. -/
def chatOk : String → String → Except String String :=
  fun _ _ => Except.ok "Odpowiedz testowa"

/-- Chat provider that always fails. -/
def chatFail : String → String → Except String String :=
  fun _ _ => Except.error "timeout"

/-- System whose embedding provider fails on every input. -/
noncomputable def sysEmbedFail : FAQSystem :=
  ⟨[faqA], [[1, 0]], fun _ => Except.error "embedding error", chatOk⟩

/-- System whose only cached embedding is empty. -/
noncomputable def sysAllEmpty : FAQSystem :=
  ⟨[faqA], [[]], fun _ => Except.ok [1, 0], chatOk⟩

/-- System whose single match scores exactly 3/10 (the default threshold):
the query embedding has norm 1, the cached one has dot product 3 with it and
norm 10. -/
noncomputable def sysBoundary : FAQSystem :=
  ⟨[faqA], [[3, 9, 3, 1]], fun _ => Except.ok [1, 0, 0, 0], chatOk⟩

/-- System whose single match scores exactly 17/20 = 0.85 (the high
threshold): dot product 17, norms 1 and 20. -/
noncomputable def sys85 : FAQSystem :=
  ⟨[faqA], [[17, 9, 5, 2, 1]], fun _ => Except.ok [1, 0, 0, 0, 0], chatOk⟩

/-- System whose single match scores exactly 1. -/
noncomputable def sysHigh : FAQSystem :=
  ⟨[faqA], [[1, 0]], fun _ => Except.ok [1, 0], chatOk⟩

/-- Like sysHigh but with a failing chat provider. -/
noncomputable def sysHighFail : FAQSystem :=
  ⟨[faqA], [[1, 0]], fun _ => Except.ok [1, 0], chatFail⟩

/-- System with two entries that both score exactly 1 against the query,
exercising the tie-breaking order of the ranking. -/
noncomputable def sysTie : FAQSystem :=
  ⟨[faqA, faqB], [[1, 0], [2, 0]], fun _ => Except.ok [1, 0], chatOk⟩

/-- Embedding provider that fails exactly on the question of faqA. -/
noncomputable def embedPartial : String → Except String (List ℝ) :=
  fun t => if t = faqA.question then Except.error "embedding error"
           else Except.ok [5, 5]

/-! ### Lemmas about the dot product and cosine similarity -/

lemma dotl_comm (a b : List ℝ) : dotl a b = dotl b a := by
  unfold dotl
  rw [List.zipWith_comm_of_comm (fun x y => x * y) mul_comm]

lemma dotl_as_sum :
    ∀ a b : List ℝ,
      dotl a b = ∑ i ∈ Finset.range (min a.length b.length), a.getD i 0 * b.getD i 0
  | [], b => by simp [dotl]
  | x :: a, [] => by simp [dotl]
  | x :: a, y :: b => by
    have ih := dotl_as_sum a b
    have hmin : min (x :: a).length (y :: b).length = min a.length b.length + 1 := by
      simp [Nat.succ_min_succ]
    rw [hmin, Finset.sum_range_succ']
    simp only [List.getD_cons_succ, List.getD_cons_zero]
    have : dotl (x :: a) (y :: b) = x * y + dotl a b := by
      simp [dotl]
    rw [this, ih, add_comm]

lemma dotl_self_nonneg (a : List ℝ) : 0 ≤ dotl a a := by
  rw [dotl_as_sum]
  exact Finset.sum_nonneg fun i _ => mul_self_nonneg _

lemma dotl_sq_le (a b : List ℝ) : dotl a b ^ 2 ≤ dotl a a * dotl b b := by
  rw [dotl_as_sum a b, dotl_as_sum a a, dotl_as_sum b b, min_self, min_self]
  have h1 := Finset.sum_mul_sq_le_sq_mul_sq (Finset.range (min a.length b.length))
    (fun i => a.getD i 0) (fun i => b.getD i 0)
  have h2 : ∑ i ∈ Finset.range (min a.length b.length), a.getD i 0 ^ 2 ≤
      ∑ i ∈ Finset.range a.length, a.getD i 0 * a.getD i 0 := by
    simp only [← sq]
    exact Finset.sum_le_sum_of_subset_of_nonneg
      (Finset.range_subset.2 (min_le_left _ _)) (fun i _ _ => sq_nonneg _)
  have h3 : ∑ i ∈ Finset.range (min a.length b.length), b.getD i 0 ^ 2 ≤
      ∑ i ∈ Finset.range b.length, b.getD i 0 * b.getD i 0 := by
    simp only [← sq]
    exact Finset.sum_le_sum_of_subset_of_nonneg
      (Finset.range_subset.2 (min_le_right _ _)) (fun i _ _ => sq_nonneg _)
  calc (∑ i ∈ Finset.range (min a.length b.length), a.getD i 0 * b.getD i 0) ^ 2
      ≤ (∑ i ∈ Finset.range (min a.length b.length), a.getD i 0 ^ 2) *
        ∑ i ∈ Finset.range (min a.length b.length), b.getD i 0 ^ 2 := h1
    _ ≤ (∑ i ∈ Finset.range a.length, a.getD i 0 * a.getD i 0) *
        ∑ i ∈ Finset.range b.length, b.getD i 0 * b.getD i 0 := by
        apply mul_le_mul h2 h3 (Finset.sum_nonneg fun i _ => sq_nonneg _)
        exact le_trans (Finset.sum_nonneg fun i _ => sq_nonneg _) h2

lemma norml_nonneg (a : List ℝ) : 0 ≤ norml a := Real.sqrt_nonneg _

lemma abs_dotl_le (a b : List ℝ) : |dotl a b| ≤ norml a * norml b := by
  have h1 : norml a * norml b = Real.sqrt (dotl a a * dotl b b) :=
    (Real.sqrt_mul (dotl_self_nonneg a) _).symm
  have h2 : |dotl a b| = Real.sqrt (dotl a b ^ 2) := (Real.sqrt_sq_eq_abs _).symm
  rw [h1, h2]
  exact Real.sqrt_le_sqrt (dotl_sq_le a b)

lemma cosine_similarity_comm (a b : List ℝ) : cosine_similarity a b = cosine_similarity b a := by
  by_cases h1 : a = [] <;> by_cases h2 : b = [] <;>
    simp [cosine_similarity, h1, h2, dotl_comm a b, mul_comm (norml a) (norml b), Or.comm]

lemma cosine_similarity_zero_cases (a b : List ℝ)
    (h : a = [] ∨ b = [] ∨ norml a = 0 ∨ norml b = 0) : cosine_similarity a b = 0 := by
  unfold cosine_similarity
  split_ifs with h1 h2
  · rfl
  · rfl
  · rcases h with h | h | h | h
    · exact absurd (Or.inl h) h1
    · exact absurd (Or.inr h) h1
    · exact absurd (Or.inl h) h2
    · exact absurd (Or.inr h) h2

lemma cosine_similarity_mem_Icc (a b : List ℝ) :
    -1 ≤ cosine_similarity a b ∧ cosine_similarity a b ≤ 1 := by
  unfold cosine_similarity
  split_ifs with h1 h2
  · norm_num
  · norm_num
  · push_neg at h2
    have hna : 0 < norml a := lt_of_le_of_ne (norml_nonneg a) (Ne.symm h2.1)
    have hnb : 0 < norml b := lt_of_le_of_ne (norml_nonneg b) (Ne.symm h2.2)
    have hpos : 0 < norml a * norml b := mul_pos hna hnb
    have habs := abs_dotl_le a b
    rw [abs_le] at habs
    constructor
    · rw [le_div_iff₀ hpos]
      linarith [habs.1]
    · rw [div_le_one hpos]
      exact habs.2

/-- C3: cosine similarity is symmetric, always lies in the interval from -1
to 1, and is exactly 0 whenever either vector is empty or either vector has
zero norm (it is a total function, so no error can be raised). -/
theorem c3_cosine_similarity_symm_bounded (a b : List ℝ) :
    cosine_similarity a b = cosine_similarity b a ∧
    -1 ≤ cosine_similarity a b ∧ cosine_similarity a b ≤ 1 ∧
    ((a = [] ∨ b = [] ∨ norml a = 0 ∨ norml b = 0) → cosine_similarity a b = 0) :=
  ⟨cosine_similarity_comm a b, (cosine_similarity_mem_Icc a b).1,
    (cosine_similarity_mem_Icc a b).2, cosine_similarity_zero_cases a b⟩

/-- Witness for C3 at concrete inputs: similarity with an empty vector is 0,
and similarity with a zero-norm vector is 0. -/
theorem c3_cosine_similarity_symm_bounded_witness :
    cosine_similarity [] [1, 2] = 0 ∧ cosine_similarity [0, 0] [1, 2] = 0 :=
  ⟨(c3_cosine_similarity_symm_bounded [] [1, 2]).2.2.2 (Or.inl rfl),
    (c3_cosine_similarity_symm_bounded [0, 0] [1, 2]).2.2.2
      (Or.inr (Or.inr (Or.inl (by simp [norml, dotl]))))⟩

/-! ### Lemmas about the ranking sort -/

instance : IsTotal (FAQEntry × ℝ) simRel := ⟨fun a b => le_total b.2 a.2⟩

instance : IsTrans (FAQEntry × ℝ) simRel := ⟨fun _ _ _ h1 h2 => le_trans h2 h1⟩

/-- Stability of the ranking sort: the elements carrying any fixed
similarity value appear in the sorted list in exactly their original
relative order. -/
lemma filter_insertionSort_key (l : List (FAQEntry × ℝ)) (s : ℝ) :
    (List.insertionSort simRel l).filter (fun p => decide (p.2 = s)) =
      l.filter (fun p => decide (p.2 = s)) := by
  classical
  have hsub : List.Sublist (l.filter (fun p => decide (p.2 = s))) l := List.filter_sublist l
  have hpair : (l.filter (fun p => decide (p.2 = s))).Pairwise simRel := by
    apply List.pairwise_of_forall_mem_list
    intro a ha b hb
    have ha2 : a.2 = s := by simpa using (List.mem_filter.1 ha).2
    have hb2 : b.2 = s := by simpa using (List.mem_filter.1 hb).2
    show b.2 ≤ a.2
    rw [ha2, hb2]
  have h2 : List.Sublist (l.filter (fun p => decide (p.2 = s)))
      (List.insertionSort simRel l) :=
    List.sublist_insertionSort hpair hsub
  have h3 : (l.filter (fun p => decide (p.2 = s))).filter (fun p => decide (p.2 = s)) =
      l.filter (fun p => decide (p.2 = s)) :=
    List.filter_eq_self.mpr fun a ha => (List.mem_filter.1 ha).2
  have h4 : List.Sublist (l.filter (fun p => decide (p.2 = s)))
      ((List.insertionSort simRel l).filter (fun p => decide (p.2 = s))) :=
    h3 ▸ h2.filter (fun p => decide (p.2 = s))
  have h5 : ((List.insertionSort simRel l).filter (fun p => decide (p.2 = s))).length =
      (l.filter (fun p => decide (p.2 = s))).length :=
    ((List.perm_insertionSort simRel l).filter _).length_eq
  exact (h4.eq_of_length h5.symm).symm

/-- Unfolding of find_similar_faqs when the query embedding is non-empty. -/
lemma find_similar_faqs_of_ne (sys : FAQSystem) (q : String) (k : Nat)
    (h : get_embedding sys.embed q ≠ []) :
    find_similar_faqs sys q k =
      (List.insertionSort simRel
        (similarity_list sys (get_embedding sys.embed q))).take k := by
  simp [find_similar_faqs, find_similar_faqs_traced, h]

/-- C4: for a non-empty query embedding, the ranked list has at most top_k
elements, is sorted by similarity in descending order, draws its elements
only from corpus entries with a non-empty cached embedding (paired with
their cosine similarity against the query embedding), and is the top_k
prefix of a stable descending sort of the similarity list: a permutation of
it that is descending and preserves, for every similarity value, the
original corpus order of the entries attaining it. -/
theorem c4_find_similar_faqs_ranking (sys : FAQSystem) (q : String) (k : Nat)
    (h : get_embedding sys.embed q ≠ []) :
    (find_similar_faqs sys q k).length ≤ k ∧
    (find_similar_faqs sys q k).Pairwise (fun x y => y.2 ≤ x.2) ∧
    (∀ m ∈ find_similar_faqs sys q k,
      ∃ fe, fe ∈ sys.faq_data.zip sys.embeddings ∧ fe.2 ≠ [] ∧
        m = (fe.1, cosine_similarity (get_embedding sys.embed q) fe.2)) ∧
    (∃ l : List (FAQEntry × ℝ),
      l.Perm (similarity_list sys (get_embedding sys.embed q)) ∧
      l.Pairwise (fun x y => y.2 ≤ x.2) ∧
      (∀ s : ℝ, l.filter (fun p => decide (p.2 = s)) =
        (similarity_list sys (get_embedding sys.embed q)).filter
          (fun p => decide (p.2 = s))) ∧
      find_similar_faqs sys q k = l.take k) := by
  classical
  have hfind := find_similar_faqs_of_ne sys q k h
  have hsorted : (List.insertionSort simRel
      (similarity_list sys (get_embedding sys.embed q))).Pairwise simRel :=
    List.sorted_insertionSort simRel _
  refine ⟨?_, ?_, ?_, List.insertionSort simRel (similarity_list sys (get_embedding sys.embed q)),
    List.perm_insertionSort simRel _, hsorted, fun s => filter_insertionSort_key _ s, hfind⟩
  · rw [hfind]
    exact List.length_take_le _ _
  · rw [hfind]
    exact hsorted.sublist (List.take_sublist _ _)
  · intro m hm
    rw [hfind] at hm
    have hm2 : m ∈ similarity_list sys (get_embedding sys.embed q) :=
      (List.mem_insertionSort simRel).1 ((List.take_sublist _ _).subset hm)
    obtain ⟨p, hp, rfl⟩ := List.mem_map.1 hm2
    obtain ⟨hzip, hbool⟩ := List.mem_filter.1 hp
    refine ⟨p, hzip, ?_, rfl⟩
    simpa [List.isEmpty_iff] using hbool

/-! ### Case equations for answer_question -/

lemma find_similar_faqs_traced_of_empty (sys : FAQSystem) (q : String) (k : Nat)
    (h : get_embedding sys.embed q = []) :
    find_similar_faqs_traced sys q k = ([], 0) := by
  simp [find_similar_faqs_traced, h]

lemma find_similar_faqs_of_all_empty (sys : FAQSystem) (q : String) (k : Nat)
    (h : ∀ e ∈ sys.embeddings, e = []) : find_similar_faqs sys q k = [] := by
  by_cases hq : get_embedding sys.embed q = []
  · simp [find_similar_faqs, find_similar_faqs_traced_of_empty sys q k hq]
  · have hsim : similarity_list sys (get_embedding sys.embed q) = [] := by
      unfold similarity_list
      rw [List.filter_eq_nil_iff.mpr ?_]
      · simp
      · intro p hp
        have h2 : p.2 ∈ sys.embeddings := (List.of_mem_zip hp).2
        simp [h p.2 h2]
    simp [find_similar_faqs, find_similar_faqs_traced, hq, hsim]

lemma answer_question_traced_nil (sys : FAQSystem) (q : String) (t : ℝ)
    (h : find_similar_faqs sys q 3 = []) :
    answer_question_traced sys q t = (low_confidence_result, false) := by
  unfold answer_question_traced
  rw [h]

lemma answer_question_traced_below (sys : FAQSystem) (q : String) (t : ℝ)
    (f : FAQEntry) (s : ℝ) (rest : List (FAQEntry × ℝ))
    (h : find_similar_faqs sys q 3 = (f, s) :: rest) (hs : s < t) :
    answer_question_traced sys q t = (low_confidence_result, false) := by
  unfold answer_question_traced
  rw [h]
  simp [hs]

lemma answer_question_traced_above (sys : FAQSystem) (q : String) (t : ℝ)
    (f : FAQEntry) (s : ℝ) (rest : List (FAQEntry × ℝ))
    (h : find_similar_faqs sys q 3 = (f, s) :: rest) (hs : ¬ s < t) :
    answer_question_traced sys q t =
      ({ answer := generate_answer_with_llm sys q (build_context ((f, s) :: rest))
         matched_faqs := ((f, s) :: rest).map
           (fun p => { question := p.1.question
                       similarity := p.2
                       similarity_percent := p.2 * 100 })
         confidence := if s > 0.85 then "high" else "medium"
         top_similarity := s }, true) := by
  unfold answer_question_traced
  rw [h]
  simp [hs]

lemma find_similar_faqs_length_le (sys : FAQSystem) (q : String) (k : Nat) :
    (find_similar_faqs sys q k).length ≤ k := by
  unfold find_similar_faqs find_similar_faqs_traced
  by_cases h : get_embedding sys.embed q = [] <;> simp [h]

/-- C1: when the query embedding comes back empty, or no corpus entry has a
non-empty cached embedding, or the top ranked similarity is strictly below
the threshold, answer_question returns exactly the canned low-confidence
result (fixed apology, no matches, confidence low, top similarity 0), the
generative model is not called, and in the empty-embedding case no
similarity scoring is performed at all. -/
theorem c1_low_confidence_shortcircuit (sys : FAQSystem) (q : String) (t : ℝ) :
    (get_embedding sys.embed q = [] →
      answer_question sys q t = low_confidence_result ∧
      (answer_question_traced sys q t).2 = false ∧
      (find_similar_faqs_traced sys q 3).2 = 0) ∧
    ((∀ e ∈ sys.embeddings, e = []) →
      answer_question sys q t = low_confidence_result ∧
      (answer_question_traced sys q t).2 = false) ∧
    (∀ (f : FAQEntry) (s : ℝ) (rest : List (FAQEntry × ℝ)),
      find_similar_faqs sys q 3 = (f, s) :: rest → s < t →
      answer_question sys q t = low_confidence_result ∧
      (answer_question_traced sys q t).2 = false) := by
  refine ⟨fun h => ?_, fun h => ?_, fun f s rest h hs => ?_⟩
  · have hfind : find_similar_faqs sys q 3 = [] := by
      simp [find_similar_faqs, find_similar_faqs_traced_of_empty sys q 3 h]
    have := answer_question_traced_nil sys q t hfind
    exact ⟨by simp [answer_question, this], by simp [this],
      by simp [find_similar_faqs_traced_of_empty sys q 3 h]⟩
  · have hfind := find_similar_faqs_of_all_empty sys q 3 h
    have := answer_question_traced_nil sys q t hfind
    exact ⟨by simp [answer_question, this], by simp [this]⟩
  · have := answer_question_traced_below sys q t f s rest h hs
    exact ⟨by simp [answer_question, this], by simp [this]⟩

/-- C2: when the ranked list is non-empty with top similarity s at least the
threshold, the confidence is never low, it is high exactly when s is
strictly greater than 0.85, and it is medium whenever s is at most 0.85 (so
both tier boundaries are inclusive from below). -/
theorem c2_confidence_tier_boundaries (sys : FAQSystem) (q : String) (t : ℝ)
    (f : FAQEntry) (s : ℝ) (rest : List (FAQEntry × ℝ))
    (h : find_similar_faqs sys q 3 = (f, s) :: rest) (ht : t ≤ s) :
    (answer_question sys q t).confidence ≠ "low" ∧
    ((answer_question sys q t).confidence = "high" ↔ 0.85 < s) ∧
    (s ≤ 0.85 → (answer_question sys q t).confidence = "medium") := by
  have hs : ¬ s < t := not_lt.2 ht
  have heq := answer_question_traced_above sys q t f s rest h hs
  have hconf : (answer_question sys q t).confidence =
      if s > 0.85 then "high" else "medium" := by
    simp [answer_question, heq]
  by_cases hc : (0.85 : ℝ) < s
  · rw [hconf, if_pos hc]
    refine ⟨by decide, by simp [hc], fun hle => absurd hc (not_lt.2 hle)⟩
  · rw [hconf, if_neg hc]
    exact ⟨by decide, by simp [hc], fun _ => rfl⟩

/-- C8: when the chat provider fails with error e, the synthesized answer is
the localized apology with the error description appended, the failure does
not propagate, and answer_question still returns a well-formed result whose
fields are all populated from the ranked matches. -/
theorem c8_synthesis_failure_fallback (sys : FAQSystem) (q : String) (t : ℝ)
    (f : FAQEntry) (s : ℝ) (rest : List (FAQEntry × ℝ)) (e : String)
    (hchat : ∀ sp up, sys.chat sp up = Except.error e)
    (h : find_similar_faqs sys q 3 = (f, s) :: rest) (ht : t ≤ s) :
    (∀ context, generate_answer_with_llm sys q context = error_answer_text ++ e) ∧
    (answer_question sys q t).answer = error_answer_text ++ e ∧
    (answer_question sys q t).matched_faqs = ((f, s) :: rest).map
      (fun p => { question := p.1.question
                  similarity := p.2
                  similarity_percent := p.2 * 100 }) ∧
    ((answer_question sys q t).confidence = "medium" ∨
      (answer_question sys q t).confidence = "high") ∧
    (answer_question sys q t).top_similarity = s := by
  have hgen : ∀ context, generate_answer_with_llm sys q context =
      error_answer_text ++ e := by
    intro context
    unfold generate_answer_with_llm
    rw [hchat]
  have hs : ¬ s < t := not_lt.2 ht
  have heq := answer_question_traced_above sys q t f s rest h hs
  refine ⟨hgen, ?_, ?_, ?_, ?_⟩
  · simp [answer_question, heq, hgen]
  · simp [answer_question, heq]
  · by_cases hc : (0.85 : ℝ) < s <;> simp [answer_question, heq, hc]
  · simp [answer_question, heq]

/-- C10: with the default threshold, every answer_question result couples
its fields consistently: confidence is low exactly when the match list is
empty, in which case the whole result is the fixed canned one; otherwise the
match list has between 1 and 3 entries, the confidence is medium or high,
and the top similarity is at least the threshold, hence strictly positive. -/
theorem c10_result_field_coupling (sys : FAQSystem) (q : String) :
    ((answer_question sys q default_similarity_threshold).confidence = "low" ↔
      (answer_question sys q default_similarity_threshold).matched_faqs = []) ∧
    ((answer_question sys q default_similarity_threshold).confidence = "low" →
      answer_question sys q default_similarity_threshold = low_confidence_result) ∧
    ((answer_question sys q default_similarity_threshold).confidence ≠ "low" →
      1 ≤ (answer_question sys q default_similarity_threshold).matched_faqs.length ∧
      (answer_question sys q default_similarity_threshold).matched_faqs.length ≤ 3 ∧
      ((answer_question sys q default_similarity_threshold).confidence = "medium" ∨
        (answer_question sys q default_similarity_threshold).confidence = "high") ∧
      default_similarity_threshold ≤
        (answer_question sys q default_similarity_threshold).top_similarity ∧
      0 < (answer_question sys q default_similarity_threshold).top_similarity) := by
  have hpos : (0 : ℝ) < default_similarity_threshold := by
    unfold default_similarity_threshold
    norm_num
  rcases hfind : find_similar_faqs sys q 3 with _ | ⟨⟨f, s⟩, rest⟩
  · have heq := answer_question_traced_nil sys q default_similarity_threshold hfind
    have hres : answer_question sys q default_similarity_threshold =
        low_confidence_result := by simp [answer_question, heq]
    rw [hres]
    refine ⟨by simp [low_confidence_result], fun _ => rfl, fun hne => ?_⟩
    exact absurd (show low_confidence_result.confidence = "low" from rfl) hne
  · by_cases hs : s < default_similarity_threshold
    · have heq := answer_question_traced_below sys q default_similarity_threshold
        f s rest hfind hs
      have hres : answer_question sys q default_similarity_threshold =
          low_confidence_result := by simp [answer_question, heq]
      rw [hres]
      refine ⟨by simp [low_confidence_result], fun _ => rfl, fun hne => ?_⟩
      exact absurd (show low_confidence_result.confidence = "low" from rfl) hne
    · have heq := answer_question_traced_above sys q default_similarity_threshold
        f s rest hfind hs
      have hlen : (find_similar_faqs sys q 3).length ≤ 3 :=
        find_similar_faqs_length_le sys q 3
      rw [hfind] at hlen
      have hconf : (answer_question sys q default_similarity_threshold).confidence =
          if s > 0.85 then "high" else "medium" := by simp [answer_question, heq]
      have hne : (answer_question sys q default_similarity_threshold).confidence ≠ "low" := by
        rw [hconf]
        by_cases hc : (0.85 : ℝ) < s
        · simp [hc]
        · simp [hc]
      refine ⟨?_, fun hlow => absurd hlow hne, fun _ => ?_⟩
      · constructor
        · intro hlow
          exact absurd hlow hne
        · intro hmat
          have : (answer_question sys q default_similarity_threshold).matched_faqs =
              ((f, s) :: rest).map (fun p => { question := p.1.question
                                               similarity := p.2
                                               similarity_percent := p.2 * 100 }) := by
            simp [answer_question, heq]
          rw [this] at hmat
          simp at hmat
      · have hmat : (answer_question sys q default_similarity_threshold).matched_faqs =
            ((f, s) :: rest).map (fun p => { question := p.1.question
                                             similarity := p.2
                                             similarity_percent := p.2 * 100 }) := by
          simp [answer_question, heq]
        have htop : (answer_question sys q default_similarity_threshold).top_similarity = s := by
          simp [answer_question, heq]
        refine ⟨?_, ?_, ?_, ?_, ?_⟩
        · rw [hmat]
          simp
        · rw [hmat]
          simpa using hlen
        · rw [hconf]
          by_cases hc : (0.85 : ℝ) < s
          · right
            simp [hc]
          · left
            simp [hc]
        · rw [htop]
          exact not_lt.1 hs
        · rw [htop]
          exact lt_of_lt_of_le hpos (not_lt.1 hs)

/-! ### Embedding generation and startup -/

lemma generate_all_embeddings_traced_general
    (embed : String → Except String (List ℝ)) :
    ∀ (l : List FAQEntry) (init : List (List ℝ)) (c : Nat),
      l.foldl
        (fun acc faq =>
          let embedding := get_embedding embed faq.question
          (acc.1 ++ [if embedding.isEmpty then [] else embedding], acc.2 + 1))
        (init, c) =
      (init ++ l.map
        (fun faq =>
          let embedding := get_embedding embed faq.question
          if embedding.isEmpty then [] else embedding), c + l.length)
  | [], init, c => by simp
  | faq :: l, init, c => by
    rw [List.foldl_cons, generate_all_embeddings_traced_general embed l _ _]
    simp [List.append_assoc]
    omega

lemma ite_isEmpty_self (e : List ℝ) : (if e.isEmpty then [] else e) = e := by
  cases e <;> simp

lemma generate_all_embeddings_eq_map (embed : String → Except String (List ℝ))
    (faq_data : List FAQEntry) :
    generate_all_embeddings embed faq_data [] =
      faq_data.map (fun faq => get_embedding embed faq.question) := by
  unfold generate_all_embeddings generate_all_embeddings_traced
  rw [generate_all_embeddings_traced_general embed faq_data [] 0]
  simp only [List.nil_append]
  congr 1
  funext faq
  exact ite_isEmpty_self _

lemma generate_all_embeddings_traced_count (embed : String → Except String (List ℝ))
    (faq_data : List FAQEntry) (init : List (List ℝ)) :
    (generate_all_embeddings_traced embed faq_data init).2 = faq_data.length := by
  unfold generate_all_embeddings_traced
  rw [generate_all_embeddings_traced_general embed faq_data init 0]
  simp

/-- C5: regenerating from an empty embeddings list yields exactly one stored
vector per corpus entry, in corpus order: the vector at position i is the
result of the (exception-catching) embedding call for the question of entry
i, which is the empty vector when the provider call failed, and one entry
failing does not disturb any other position (the generation is total, so no
failure aborts the batch). -/
theorem c5_one_vector_per_entry (embed : String → Except String (List ℝ))
    (faq_data : List FAQEntry) :
    (generate_all_embeddings embed faq_data []).length = faq_data.length ∧
    (∀ i, i < faq_data.length →
      (generate_all_embeddings embed faq_data []).getD i [] =
        get_embedding embed ((faq_data.getD i ⟨0, "", ""⟩).question)) ∧
    (∀ i err, i < faq_data.length →
      embed ((faq_data.getD i ⟨0, "", ""⟩).question) = Except.error err →
      (generate_all_embeddings embed faq_data []).getD i [] = []) := by
  rw [generate_all_embeddings_eq_map]
  have hget : ∀ i, i < faq_data.length →
      (faq_data.map (fun faq => get_embedding embed faq.question)).getD i [] =
        get_embedding embed ((faq_data.getD i ⟨0, "", ""⟩).question) := by
    intro i hi
    rw [List.getD_eq_getElem?_getD, List.getElem?_map,
      List.getElem?_eq_getElem hi]
    simp [List.getD_eq_getElem?_getD, List.getElem?_eq_getElem hi]
  refine ⟨by simp, hget, fun i err hi herr => ?_⟩
  rw [hget i hi]
  unfold get_embedding
  rw [herr]

/-- C6: startup is idempotent with respect to provider calls — a second
startup from the disk state left by a first startup, with the same corpus
hash, corpus, and model identity, makes zero embedding-provider calls — and
cache validation succeeds exactly when the stored file hash, stored FAQ
count and stored model identity all equal the current values. -/
theorem c6_startup_idempotent (disk : DiskState) (current_hash : String)
    (faq_data : List FAQEntry) (model : String)
    (embed : String → Except String (List ℝ)) (ts1 ts2 : String) :
    (startup ((startup disk current_hash faq_data model embed ts1).disk)
      current_hash faq_data model embed ts2).provider_calls = 0 ∧
    (∀ (c : CacheRecord) (h : String) (n : Nat) (m : String),
      validate_cache c h n m = true ↔
        (c.file_hash = h ∧ c.faq_count = n ∧ c.model = m)) := by
  constructor
  · cases hload : load_cached_embeddings disk current_hash faq_data.length model with
    | some cached =>
      simp [startup, hload]
    | none =>
      have h1 : (startup disk current_hash faq_data model embed ts1).disk =
          some (Except.ok (save_cache_record
            (generate_all_embeddings_traced embed faq_data []).1
            current_hash faq_data.length model ts1)) := by
        unfold startup
        rw [hload]
      rw [h1]
      unfold startup
      simp [load_cached_embeddings, validate_cache, save_cache_record]
  · intro c h n m
    simp [validate_cache, and_assoc]

/-- Witness for C6: a concrete cold start (no cache file) followed by a
restart makes zero provider calls the second time, and a concrete record
validates against its own metadata. -/
theorem c6_startup_idempotent_witness :
    (startup ((startup none "h1" [faqA] "m1" (fun _ => Except.ok [1]) "t1").disk)
      "h1" [faqA] "m1" (fun _ => Except.ok [1]) "t2").provider_calls = 0 ∧
    validate_cache ⟨[[1]], "h1", 1, "m1", "t1"⟩ "h1" 1 "m1" = true :=
  ⟨(c6_startup_idempotent none "h1" [faqA] "m1" (fun _ => Except.ok [1]) "t1" "t2").1,
    ((c6_startup_idempotent none "h1" [faqA] "m1" (fun _ => Except.ok [1]) "t1" "t2").2
      ⟨[[1]], "h1", 1, "m1", "t1"⟩ "h1" 1 "m1").mpr ⟨rfl, rfl, rfl⟩⟩

/-! ### Cache persistence (C7) -/

/-- Counterexample to C7 as stated: the save trace of
save_embeddings_cache is not an atomic write-to-temp-then-replace — its
very first operation opens (and truncates) the final cache file itself,
and it performs no rename at all. -/
theorem c7_counterexample_direct_write :
    ¬ atomic_via_temp_replace
        (save_embeddings_cache_ops ⟨[], "h1", 0, "m1", "t1"⟩)
        embeddings_cache_file := by
  intro hat
  have h := hat.1 (FileOp.openTrunc embeddings_cache_file)
    (by simp [save_embeddings_cache_ops])
  exact h rfl

/-- C7 amended: save_embeddings_cache writes the record directly into the
cache file — truncate, then write, with no temporary file — so a reader
observing the filesystem between the two steps sees a truncated
(half-written) cache file; an uninterrupted save does leave the full record,
and a reader whose deserialization of a damaged cache file fails treats the
cache as absent (load_cached_embeddings returns the regenerate signal)
rather than crashing. -/
theorem c7_save_not_atomic (cache : CacheRecord) (fs0 : FileSys) :
    (∃ fs ∈ fs_states fs0 (save_embeddings_cache_ops cache),
      fs embeddings_cache_file = some CacheFileView.truncated) ∧
    final_fs fs0 (save_embeddings_cache_ops cache) embeddings_cache_file =
      some (CacheFileView.full cache) ∧
    (∀ (h : String) (n : Nat) (m : String),
      load_cached_embeddings corrupt_cache_disk h n m = none) := by
  refine ⟨⟨apply_op fs0 (FileOp.openTrunc embeddings_cache_file), ?_, ?_⟩, ?_, ?_⟩
  · simp [fs_states, save_embeddings_cache_ops]
  · simp [apply_op]
  · simp [final_fs, save_embeddings_cache_ops, apply_op]
  · intro h n m
    rfl

/-! ### Corpus loading (C9) -/

/-- C9: load_faq fails exactly when the source file is unreadable, is not
valid JSON, or its document does not yield a faqs key (including the
non-object document case, where the Python subscript itself raises);
otherwise it fully succeeds, producing precisely the value stored under the
faqs key in one piece — there is no partial-load outcome. -/
theorem c9_load_faq_total_or_error (file_path : String) (src : FAQFileSource) :
    ((∃ e, load_faq file_path src = Except.error e) ↔
      (src = FAQFileSource.missing ∨
        (∃ m, src = FAQFileSource.unparsable m) ∨
        (∃ d, src = FAQFileSource.parsed d ∧ faqs_value d = none))) ∧
    (∀ v, load_faq file_path src = Except.ok v ↔
      (∃ d, src = FAQFileSource.parsed d ∧ faqs_value d = some v)) := by
  cases src with
  | missing => simp [load_faq]
  | unparsable m => simp [load_faq]
  | parsed d =>
    cases hf : faqs_value d with
    | some v =>
      constructor
      · simp [load_faq, hf]
      · intro v2
        simp [load_faq, hf]
    | none =>
      constructor
      · constructor
        · intro _
          exact Or.inr (Or.inr ⟨d, rfl, hf⟩)
        · intro _
          cases d with
          | obj fields =>
            exact ⟨"FAQ file must contain the faqs key", by simp [load_faq, hf]⟩
          | null => exact ⟨"TypeError: subscript on a non-object document", rfl⟩
          | bool b => exact ⟨"TypeError: subscript on a non-object document", rfl⟩
          | num n => exact ⟨"TypeError: subscript on a non-object document", rfl⟩
          | str s2 => exact ⟨"TypeError: subscript on a non-object document", rfl⟩
          | arr l => exact ⟨"TypeError: subscript on a non-object document", rfl⟩
      · intro v
        constructor
        · intro hv
          exfalso
          cases d with
          | obj fields => simp [load_faq, hf] at hv
          | null => exact Except.noConfusion hv
          | bool b => exact Except.noConfusion hv
          | num n => exact Except.noConfusion hv
          | str s2 => exact Except.noConfusion hv
          | arr l => exact Except.noConfusion hv
        · rintro ⟨d2, hd2, hv2⟩
          cases hd2
          rw [hf] at hv2
          cases hv2

/-- Witness for C9: a well-formed document loads its faqs value, a missing
file is an error, and a valid-JSON document that is an array (so has no
faqs key) is an error. -/
theorem c9_load_faq_total_or_error_witness :
    load_faq "faq.json"
        (FAQFileSource.parsed (JSONValue.obj [("faqs", JSONValue.arr [])])) =
      Except.ok (JSONValue.arr []) ∧
    (∃ e, load_faq "faq.json" FAQFileSource.missing = Except.error e) ∧
    (∃ e, load_faq "faq.json" (FAQFileSource.parsed (JSONValue.arr [])) =
      Except.error e) :=
  ⟨((c9_load_faq_total_or_error "faq.json"
      (FAQFileSource.parsed (JSONValue.obj [("faqs", JSONValue.arr [])]))).2
        (JSONValue.arr [])).mpr
      ⟨JSONValue.obj [("faqs", JSONValue.arr [])], rfl, by
        simp [faqs_value, lookup_key]⟩,
    (c9_load_faq_total_or_error "faq.json" FAQFileSource.missing).1.mpr
      (Or.inl rfl),
    (c9_load_faq_total_or_error "faq.json"
      (FAQFileSource.parsed (JSONValue.arr []))).1.mpr
      (Or.inr (Or.inr ⟨JSONValue.arr [], rfl, rfl⟩))⟩

/-! ### Concrete evaluations used by the witnesses -/

lemma cosine_eval_of_sq (a b : List ℝ) (ha : a ≠ []) (hb : b ≠ []) (x y : ℝ)
    (hx : 0 < x) (hy : 0 < y) (hda : dotl a a = x ^ 2) (hdb : dotl b b = y ^ 2) :
    cosine_similarity a b = dotl a b / (x * y) := by
  have hna : norml a = x := by rw [norml, hda, Real.sqrt_sq hx.le]
  have hnb : norml b = y := by rw [norml, hdb, Real.sqrt_sq hy.le]
  unfold cosine_similarity
  rw [if_neg (by simp [ha, hb]), if_neg ?_, hna, hnb]
  rw [hna, hnb]
  push_neg
  exact ⟨hx.ne', hy.ne'⟩

lemma cosine_one_one : cosine_similarity [1, 0] [1, 0] = 1 := by
  rw [cosine_eval_of_sq _ _ (by simp) (by simp) 1 1 one_pos one_pos
    (by norm_num [dotl]) (by norm_num [dotl])]
  norm_num [dotl]

lemma cosine_one_two : cosine_similarity [1, 0] [2, 0] = 1 := by
  rw [cosine_eval_of_sq _ _ (by simp) (by simp) 1 2 one_pos two_pos
    (by norm_num [dotl]) (by norm_num [dotl])]
  norm_num [dotl]

lemma cosine_boundary : cosine_similarity [1, 0, 0, 0] [3, 9, 3, 1] = 3 / 10 := by
  rw [cosine_eval_of_sq _ _ (by simp) (by simp) 1 10 one_pos (by norm_num)
    (by norm_num [dotl]) (by norm_num [dotl])]
  norm_num [dotl]

lemma cosine_85 : cosine_similarity [1, 0, 0, 0, 0] [17, 9, 5, 2, 1] = 17 / 20 := by
  rw [cosine_eval_of_sq _ _ (by simp) (by simp) 1 20 one_pos (by norm_num)
    (by norm_num [dotl]) (by norm_num [dotl])]
  norm_num [dotl]

lemma find_similar_faqs_single (faq : FAQEntry) (v qv : List ℝ)
    (ef : String → Except String (List ℝ))
    (ch : String → String → Except String String) (q : String) (k : Nat)
    (hef : ef q = Except.ok qv) (hqv : qv ≠ []) (hv : v ≠ []) (hk : k ≠ 0) :
    find_similar_faqs ⟨[faq], [v], ef, ch⟩ q k =
      [(faq, cosine_similarity qv v)] := by
  have hge : get_embedding (FAQSystem.mk [faq] [v] ef ch).embed q = qv := by
    simp [get_embedding, hef]
  rw [find_similar_faqs_of_ne _ _ _ (by rw [hge]; exact hqv), hge]
  have hsim : similarity_list ⟨[faq], [v], ef, ch⟩ qv =
      [(faq, cosine_similarity qv v)] := by
    simp [similarity_list, hv]
  rw [hsim]
  cases k with
  | zero => exact absurd rfl hk
  | succ k2 => simp [List.insertionSort]

lemma find_sysBoundary : find_similar_faqs sysBoundary "foto" 3 = [(faqA, 3 / 10)] := by
  have h := find_similar_faqs_single faqA [3, 9, 3, 1] [1, 0, 0, 0]
    (fun _ => Except.ok [1, 0, 0, 0]) chatOk "foto" 3 rfl (by simp) (by simp)
    (by norm_num)
  rw [cosine_boundary] at h
  exact h

lemma find_sys85 : find_similar_faqs sys85 "foto" 3 = [(faqA, 17 / 20)] := by
  have h := find_similar_faqs_single faqA [17, 9, 5, 2, 1] [1, 0, 0, 0, 0]
    (fun _ => Except.ok [1, 0, 0, 0, 0]) chatOk "foto" 3 rfl (by simp) (by simp)
    (by norm_num)
  rw [cosine_85] at h
  exact h

lemma find_sysHigh : find_similar_faqs sysHigh "foto" 3 = [(faqA, 1)] := by
  have h := find_similar_faqs_single faqA [1, 0] [1, 0]
    (fun _ => Except.ok [1, 0]) chatOk "foto" 3 rfl (by simp) (by simp)
    (by norm_num)
  rw [cosine_one_one] at h
  exact h

lemma find_sysHighFail : find_similar_faqs sysHighFail "foto" 3 = [(faqA, 1)] := by
  have h := find_similar_faqs_single faqA [1, 0] [1, 0]
    (fun _ => Except.ok [1, 0]) chatFail "foto" 3 rfl (by simp) (by simp)
    (by norm_num)
  rw [cosine_one_one] at h
  exact h

lemma find_similar_faqs_tie :
    find_similar_faqs sysTie "foto" 3 = [(faqA, 1), (faqB, 1)] := by
  have hge : get_embedding sysTie.embed "foto" = [1, 0] := rfl
  rw [find_similar_faqs_of_ne _ _ _ (by rw [hge]; simp), hge]
  have hsim : similarity_list sysTie [1, 0] =
      [(faqA, cosine_similarity [1, 0] [1, 0]),
       (faqB, cosine_similarity [1, 0] [2, 0])] := by
    simp [similarity_list, sysTie]
  rw [hsim, cosine_one_one, cosine_one_two]
  have hins : List.insertionSort simRel [(faqA, (1 : ℝ)), (faqB, (1 : ℝ))] =
      [(faqA, (1 : ℝ)), (faqB, (1 : ℝ))] := by
    show List.orderedInsert simRel (faqA, (1 : ℝ))
      (List.orderedInsert simRel (faqB, (1 : ℝ)) []) = _
    rw [List.orderedInsert, List.orderedInsert,
      if_pos (show simRel (faqA, (1 : ℝ)) (faqB, (1 : ℝ)) from le_refl 1)]
  rw [hins]
  rfl

/-! ### Remaining witnesses -/

/-- Witness for C1 at concrete systems: a failing query embedding, a corpus
whose only cached embedding is empty, and a top similarity of 3/10 below a
threshold of 1/2 all yield exactly the canned low result, and the failing
query embedding performs no scoring. -/
theorem c1_low_confidence_shortcircuit_witness :
    answer_question sysEmbedFail "foto" (3 / 10) = low_confidence_result ∧
    (find_similar_faqs_traced sysEmbedFail "foto" 3).2 = 0 ∧
    answer_question sysAllEmpty "foto" (3 / 10) = low_confidence_result ∧
    answer_question sysBoundary "foto" (1 / 2) = low_confidence_result := by
  have h1 := (c1_low_confidence_shortcircuit sysEmbedFail "foto" (3 / 10)).1 rfl
  have h2 := (c1_low_confidence_shortcircuit sysAllEmpty "foto" (3 / 10)).2.1
    (by intro e he; simpa [sysAllEmpty] using he)
  have h3 := (c1_low_confidence_shortcircuit sysBoundary "foto" (1 / 2)).2.2
    faqA (3 / 10) [] find_sysBoundary (by norm_num)
  exact ⟨h1.1, h1.2.2, h2.1, h3.1⟩

/-- Witness for C2 at the exact tier boundaries: a top similarity exactly
equal to the threshold 3/10 classifies as medium, and a top similarity
exactly equal to 0.85 classifies as medium. -/
theorem c2_confidence_tier_boundaries_witness :
    (answer_question sysBoundary "foto" (3 / 10)).confidence = "medium" ∧
    (answer_question sys85 "foto" (3 / 10)).confidence = "medium" :=
  ⟨(c2_confidence_tier_boundaries sysBoundary "foto" (3 / 10) faqA (3 / 10) []
      find_sysBoundary (le_refl _)).2.2 (by norm_num),
    (c2_confidence_tier_boundaries sys85 "foto" (3 / 10) faqA (17 / 20) []
      find_sys85 (by norm_num)).2.2 (by norm_num)⟩

/-- Witness for C4 at a concrete tie: two entries scoring exactly 1 are
returned in corpus order, and the ranked list respects the top-k bound. -/
theorem c4_find_similar_faqs_ranking_witness :
    (find_similar_faqs sysTie "foto" 3).length ≤ 3 ∧
    find_similar_faqs sysTie "foto" 3 = [(faqA, 1), (faqB, 1)] :=
  ⟨(c4_find_similar_faqs_ranking sysTie "foto" 3
      (by simp [get_embedding, sysTie])).1,
    find_similar_faqs_tie⟩

/-- Witness for C5 at a concrete two-entry corpus whose provider fails on
the first question only: two vectors are stored and the first is empty. -/
theorem c5_one_vector_per_entry_witness :
    (generate_all_embeddings embedPartial [faqA, faqB] []).length = 2 ∧
    (generate_all_embeddings embedPartial [faqA, faqB] []).getD 0 [] = [] := by
  have h := c5_one_vector_per_entry embedPartial [faqA, faqB]
  exact ⟨h.1, h.2.2 0 "embedding error" (by norm_num) (by simp [embedPartial])⟩

/-- Witness for C8 at a concrete failing chat provider: the answer is the
localized apology with the error appended, and the result still carries the
top similarity. -/
theorem c8_synthesis_failure_fallback_witness :
    (answer_question sysHighFail "foto" (3 / 10)).answer =
      error_answer_text ++ "timeout" ∧
    (answer_question sysHighFail "foto" (3 / 10)).top_similarity = 1 := by
  have h := c8_synthesis_failure_fallback sysHighFail "foto" (3 / 10) faqA 1 []
    "timeout" (fun _ _ => rfl) find_sysHighFail (by norm_num)
  exact ⟨h.2.1, h.2.2.2.2⟩

/-- Witness for C10 at concrete systems: a low result has no matches, and a
high result has between 1 and 3 matches with positive top similarity. -/
theorem c10_result_field_coupling_witness :
    (answer_question sysEmbedFail "foto" default_similarity_threshold).matched_faqs = [] ∧
    1 ≤ (answer_question sysHigh "foto" default_similarity_threshold).matched_faqs.length ∧
    (answer_question sysHigh "foto" default_similarity_threshold).matched_faqs.length ≤ 3 ∧
    0 < (answer_question sysHigh "foto" default_similarity_threshold).top_similarity := by
  have hfind : find_similar_faqs sysEmbedFail "foto" 3 = [] := by
    simp [find_similar_faqs,
      find_similar_faqs_traced_of_empty sysEmbedFail "foto" 3 rfl]
  have hlow := answer_question_traced_nil sysEmbedFail "foto"
    default_similarity_threshold hfind
  have hlowconf : (answer_question sysEmbedFail "foto"
      default_similarity_threshold).confidence = "low" := by
    simp [answer_question, hlow, low_confidence_result]
  have h1 := ((c10_result_field_coupling sysEmbedFail "foto").1).mp hlowconf
  have heq := answer_question_traced_above sysHigh "foto"
    default_similarity_threshold faqA 1 [] find_sysHigh
    (by norm_num [default_similarity_threshold])
  have hconfHigh : (answer_question sysHigh "foto"
      default_similarity_threshold).confidence = "high" := by
    simp [answer_question, heq]
    norm_num
  have h2 := (c10_result_field_coupling sysHigh "foto").2.2
    (by rw [hconfHigh]; decide)
  exact ⟨h1, h2.1, h2.2.1, h2.2.2.2.2⟩

end PhotoFaq
